import Mathlib

/-!
Verification development for the Kaiten API client.

The definitions below are shallow embeddings of the Python sources:
`src/config.py` (configuration, credentials, base-URL derivation),
`src/kaiten_client.py` (`KaitenClient._request`: rate limiting, retry loop,
response classification, query-string construction; `delete_card`,
`get_cards`), and `src/models/base.py` (`KaitenObject`).

Python strings are modelled as `String` or as `List Char` (when character
level reasoning is needed), the monotonic clock as `ℚ`, machine floats of
timestamps and delays as `ℚ` (the code only adds/subtracts small values,
so exact arithmetic is a faithful model of the observable comparisons).
Exceptions become `Except`; `None` becomes `Option.none`.
-/

namespace Kaiten

/-! ## Configuration constants (`src/config.py`, class `KaitenConfig`) -/

/-- `KaitenConfig.MAX_RETRIES = 3`. -/
def MAX_RETRIES : Nat := 3

/-- `KaitenConfig.RETRY_DELAY = 1.0` (seconds). -/
def RETRY_DELAY : ℚ := 1

/-- `KaitenConfig.LIMIT_PER_SEC = 3`. -/
def LIMIT_PER_SEC : Nat := 3

/-! ## Base URL derivation (`KaitenConfig.get_base_url`)

Python string primitives used by `get_base_url`, modelled on `List Char`:
`str.strip()`, `str.replace(pat, "")` (removes every non-overlapping
occurrence, scanning left to right), `str.rstrip("/")`, `str.endswith`. -/

/-- Python `str.strip()`: drop leading and trailing whitespace. -/
def pyStrip (l : List Char) : List Char :=
  ((l.dropWhile Char.isWhitespace).reverse.dropWhile Char.isWhitespace).reverse

/-- Recursion core of `pyRemoveAll`, structurally recursive on a fuel
argument so that it evaluates inside the kernel.  Every step consumes at
least one character of the scanned list, so `fuel = l.length` never runs
out. -/
def pyRemoveAllGo (pat : List Char) : Nat → List Char → List Char
  | 0, l => l
  | _ + 1, [] => []
  | fuel + 1, c :: rest =>
    if pat.isPrefixOf (c :: rest) ∧ pat ≠ [] then
      pyRemoveAllGo pat fuel (rest.drop (pat.length - 1))
    else
      c :: pyRemoveAllGo pat fuel rest

/-- Python `str.replace(pat, "")`: remove every occurrence of `pat`,
scanning left to right, non-overlapping.  (`pat = []` behaves as the
identity; the source only uses non-empty patterns.) -/
def pyRemoveAll (pat l : List Char) : List Char :=
  pyRemoveAllGo pat l.length l

/-- Python `str.rstrip("/")`: drop all trailing slash characters. -/
def pyRstripSlash (l : List Char) : List Char :=
  (l.reverse.dropWhile (fun c => c = '/')).reverse

/-- The service suffix `".kaiten.ru"` appended by `get_base_url`. -/
def kaitenSuffix : List Char := ".kaiten.ru".data

/-- `KaitenConfig.get_base_url(domain)` (src/config.py lines 55-68):
raises `ValueError` on the empty string; otherwise strips whitespace,
removes every occurrence of `"https://"` then of `"http://"`, strips
trailing slashes, appends `".kaiten.ru"` unless the result already ends
with it, and formats `https://{domain}/api/v1`. -/
def get_base_url (domain : String) : Except String (List Char) :=
  if domain = "" then
    .error "Domain не может быть пустым"
  else
    let d1 := pyRstripSlash (pyRemoveAll "http://".data
      (pyRemoveAll "https://".data (pyStrip domain.data)))
    let d2 := if kaitenSuffix.isSuffixOf d1 then d1 else d1 ++ kaitenSuffix
    .ok ("https://".data ++ d2 ++ "/api/v1".data)

/-- The normalization that claim C6 describes, written from the claim's
words: strip only a LEADING `https://` and a LEADING `http://` prefix
(rather than every occurrence) from the trimmed input, then trailing
slashes, then append the suffix when absent. -/
def specLeadingNormalize (domain : String) : List Char :=
  let strip1 := fun (pat l : List Char) =>
    if pat.isPrefixOf l then l.drop pat.length else l
  let d1 := pyRstripSlash (strip1 "http://".data
    (strip1 "https://".data (pyStrip domain.data)))
  if kaitenSuffix.isSuffixOf d1 then d1 else d1 ++ kaitenSuffix

/-- The normalization actually performed by the code, stated on its own:
remove EVERY occurrence of `"https://"` and then of `"http://"` from the
trimmed input, strip trailing slashes, and append `".kaiten.ru"` exactly
when the result does not already end with it. -/
def codeNormalize (domain : String) : List Char :=
  let d1 := pyRstripSlash (pyRemoveAll "http://".data
    (pyRemoveAll "https://".data (pyStrip domain.data)))
  if kaitenSuffix.isSuffixOf d1 then d1 else d1 ++ kaitenSuffix

/-! ## Query-string construction (`KaitenClient._request`, lines 143-145)

```python
if params:
    for key, value in params.items():
        url += f"{'&' if '?' in url else '?'}{key}={value}"
```
Parameters are modelled as an insertion-ordered list of key/value pairs
whose values are already rendered to strings (the f-string interpolation);
the façade methods only put non-`None` parameters into the map. -/

/-- The query-string construction loop of `_request`: each parameter is
appended literally as `key=value`, preceded by `&` when the URL built so
far already contains a `?` and by `?` otherwise. -/
def addQueryParams (url : List Char) (ps : List (String × String)) : List Char :=
  ps.foldl
    (fun u kv => u ++ (if '?' ∈ u then ['&'] else ['?']) ++ kv.1.data ++ '=' :: kv.2.data)
    url

/-! ## Credentials (`src/config.py`, class `KaitenCredentials`) -/

/-- Python `str.strip()` on `String`, via `pyStrip`. -/
def pyTrim (s : String) : String :=
  String.mk (pyStrip s.data)

/-- The state stored by a successfully constructed `KaitenCredentials`. -/
structure Credentials where
  domain : String
  token : String
deriving DecidableEq

/-- `KaitenCredentials.__init__` (src/config.py lines 74-81): raises
`ValueError` when domain (resp. token) is empty or whitespace-only,
otherwise stores the stripped values. -/
def credentialsInit (domain token : String) : Except String Credentials :=
  if domain = "" ∨ pyTrim domain = "" then
    .error "Domain обязателен"
  else if token = "" ∨ pyTrim token = "" then
    .error "API token обязателен"
  else
    .ok ⟨pyTrim domain, pyTrim token⟩

/-! ## KaitenObject (`src/models/base.py`)

Python dictionaries are insertion-ordered maps; `KaitenObject` keeps a
reference `_data` to such a dictionary, caches `_id = data.get('id')` at
construction, and its `data` property returns `self._data.copy()` — a
shallow copy, i.e. a freshly allocated dictionary with the same top-level
entries.  To talk about aliasing we model a heap of dictionaries:
references are natural numbers, a heap maps references to dictionaries
and records the next fresh reference. -/

/-- Python values stored at the top level of an object's data dictionary
(the claims only inspect identity-relevant scalars). -/
inductive PyVal
  | pnone
  | pint (n : Int)
  | pstr (s : String)
deriving DecidableEq

/-- A Python dictionary: insertion-ordered key/value list, keys unique. -/
abbrev PyDict := List (String × PyVal)

/-- Python `d[k]`-lookup returning `none` when the key is absent. -/
def dictFind (d : PyDict) (k : String) : Option PyVal :=
  d.lookup k

/-- Python `d[k] = v`: replace in place when the key exists (keeping its
position), otherwise append the new entry. -/
def dictSet (d : PyDict) (k : String) (v : PyVal) : PyDict :=
  match d with
  | [] => [(k, v)]
  | (k1, v1) :: rest =>
    if k1 = k then (k, v) :: rest else (k1, v1) :: dictSet rest k v

/-- Python `del d[k]`: remove the entry with key `k`. -/
def dictDel (d : PyDict) (k : String) : PyDict :=
  d.filter (fun p => p.1 ≠ k)

/-- A heap of dictionaries: `next` is the next fresh reference, `mem r`
the dictionary stored at reference `r`. -/
structure Heap where
  next : Nat
  mem : Nat → PyDict

/-- The per-instance state of a `KaitenObject`: the reference to its
`_data` dictionary and the cached `_id = data.get('id')`. -/
structure KObj where
  dataRef : Nat
  cachedId : Option PyVal

/-- `KaitenObject.__init__(client, data)` for a data dictionary living at
reference `r`: store the reference and cache `data.get('id')`. -/
def kobjInit (h : Heap) (r : Nat) : KObj :=
  ⟨r, dictFind (h.mem r) "id"⟩

/-- The `data` property (src/models/base.py lines 36-39): return
`self._data.copy()` — allocate a fresh dictionary with the same top-level
entries and hand back its reference. -/
def kobjData (h : Heap) (o : KObj) : Nat × Heap :=
  (h.next, ⟨h.next + 1, fun r => if r = h.next then h.mem o.dataRef else h.mem r⟩)

/-- A top-level mutation of a dictionary: add/replace a key or delete
one. -/
inductive DictMut
  | set (k : String) (v : PyVal)
  | del (k : String)

/-- Apply one mutation to the dictionary at reference `r`. -/
def applyMut (h : Heap) (r : Nat) : DictMut → Heap
  | .set k v => ⟨h.next, fun q => if q = r then dictSet (h.mem r) k v else h.mem q⟩
  | .del k => ⟨h.next, fun q => if q = r then dictDel (h.mem r) k else h.mem q⟩

/-- Apply a sequence of mutations to the dictionary at reference `r`. -/
def applyMuts (h : Heap) (r : Nat) : List DictMut → Heap
  | [] => h
  | m :: ms => applyMuts (applyMut h r m) r ms

/-- `KaitenObject.id`: returns the cached `_id`; reads no heap state. -/
def kobjId (o : KObj) : Option PyVal :=
  o.cachedId

/-- `KaitenObject.__getitem__`: `self._data[key]` (`none` models the
`KeyError` case). -/
def kobjGetItem (h : Heap) (o : KObj) (k : String) : Option PyVal :=
  dictFind (h.mem o.dataRef) k

/-- `KaitenObject.__contains__`: `key in self._data`. -/
def kobjContains (h : Heap) (o : KObj) (k : String) : Bool :=
  (dictFind (h.mem o.dataRef) k).isSome

/-- `KaitenObject.get`: `self._data.get(key, default)`. -/
def kobjGet (h : Heap) (o : KObj) (k : String) (dflt : PyVal) : PyVal :=
  (dictFind (h.mem o.dataRef) k).getD dflt

/-! ## KaitenObject equality (`src/models/base.py` lines 61-69)

`__eq__` compares against an arbitrary Python value, so the right-hand
operand is modelled as either a `KaitenObject` (with its concrete class
name, modelling `self.__class__`) or some non-`KaitenObject` value. -/

/-- A `KaitenObject` as seen by `__eq__`/`__hash__`: its concrete class
(e.g. `"Card"`, `"Board"`) and its cached id. -/
structure KObject where
  cls : String
  id : Option PyVal
deriving DecidableEq

/-- An arbitrary Python value compared against a `KaitenObject`. -/
inductive PyAny
  | kobj (o : KObject)
  | other (v : PyVal)

/-- `KaitenObject.__eq__`: `False` for a non-`KaitenObject` operand,
otherwise `self.id == other.id and self.__class__ == other.__class__`. -/
def kaitenEq (a : KObject) : PyAny → Bool
  | .kobj b => decide (a.id = b.id) && decide (a.cls = b.cls)
  | .other _ => false

/-- `KaitenObject.__hash__` hashes the pair `(self.__class__, self.id)`;
since Python's `hash` is a function of that tuple, the tuple itself is a
faithful model of the hash value. -/
def kaitenHash (a : KObject) : String × Option PyVal :=
  (a.cls, a.id)

/-! ## The request pipeline (`KaitenClient._request`, lines 113-188)

The retry loop is modelled as a function of an oracle that yields, for
each attempt number, what the transport produced for that attempt: either
an `aiohttp.ClientError` or an HTTP response (status, `Retry-After`
header, decoded JSON body, raw body text).  The loop records an event
trace: the single rate-limiter acquisition performed before the loop,
each HTTP exchange (together with the rate window at that moment), each
sleep with its exact duration, and each clearing of the rate window. -/

/-- A decoded JSON value, as returned by `response.json()`. -/
inductive Json
  | jnull
  | jbool (b : Bool)
  | jnum (n : Int)
  | jstr (s : String)
  | jarr (xs : List Json)
  | jobj (fields : List (String × Json))

/-- The exception classes of `src/exceptions.py`.  `KaitenClient._request`
only ever raises `KaitenApiError`, `KaitenNotFoundError` and
`KaitenValidationError`; the remaining classes are defined by the module
(and named by the spec) but never raised by the pipeline. -/
inductive ExcClass
  | apiError
  | notFound
  | validation
  | authentication
  | permission
  | rateLimit
  | serverError
  | connection
  | timeout
deriving DecidableEq

/-- A raised exception: its class, its message, and (for the 422 branch)
the parsed error body that Python interpolates into the message, kept
structurally. -/
structure KExc where
  cls : ExcClass
  msg : String
  body : Option Json

/-- What the transport produced for one attempt. -/
inductive AttemptResult
  | clientError (msg : String)
  | response (status : Nat) (retryAfter : Option String) (body : Json) (rawText : String)

/-- An observable event of one `_request` invocation. -/
inductive Event
  | acquire (t : ℚ)
  | send (attempt : Nat) (window : List ℚ)
  | sleepFor (d : ℚ)
  | clearWindow
deriving DecidableEq

/-- `true` exactly on rate-limiter acquisition events. -/
def isAcquire : Event → Bool
  | .acquire _ => true
  | _ => false

/-- `true` exactly on HTTP-exchange events. -/
def isSend : Event → Bool
  | .send _ _ => true
  | _ => false

/-- The observable result of one `_request` invocation: the event trace,
the returned payload or raised exception, and the final rate window. -/
structure RunResult where
  events : List Event
  outcome : Except KExc (Option Json)
  window : List ℚ

/-- The numeric value of a list of decimal digit characters. -/
def natOfDigits (l : List Char) : Nat :=
  l.foldl (fun a c => a * 10 + (c.toNat - 48)) 0

/-- The value of an unsigned decimal literal: digits with at most one
dot and at least one digit overall; `none` on anything else. -/
def pyFloatCore (l : List Char) : Option ℚ :=
  let ipart := l.takeWhile (fun c => c ≠ '.')
  match l.dropWhile (fun c => c ≠ '.') with
  | [] =>
    if ipart ≠ [] ∧ ipart.all Char.isDigit then
      some (natOfDigits ipart)
    else none
  | _ :: frac =>
    if (ipart ≠ [] ∨ frac ≠ []) ∧ ipart.all Char.isDigit ∧ frac.all Char.isDigit ∧
        '.' ∉ frac then
      some ((natOfDigits ipart : ℚ) + (natOfDigits frac : ℚ) / 10 ^ frac.length)
    else none

/-- Python `float(s)` on finite decimal literals: optional surrounding
whitespace, optional sign, digits with at most one dot (and at least one
digit overall); `none` models the `ValueError` on anything else.
(Exponent, `inf` and `nan` forms are not modelled; the code only feeds
`Retry-After` header strings here.) -/
def pyFloat (s : String) : Option ℚ :=
  match pyStrip s.data with
  | '-' :: r => (pyFloatCore r).map (fun q => -q)
  | '+' :: r => pyFloatCore r
  | l => pyFloatCore l

/-- The 429 branch's delay computation (lines 152-156):
`retry_after = response.headers.get('Retry-After', '1')`, then
`float(retry_after)` with `ValueError` defaulting to `1.0`. -/
def parseRetryAfter (header : Option String) : ℚ :=
  (pyFloat (header.getD "1")).getD 1

/-- The retry loop `for attempt in range(1, retries + 1)` (lines 147-188),
structurally recursive on the remaining number of iterations `fuel`
(`fuel = retries - attempt + 1`; a call with `fuel = 0` models the loop
ending with Python's implicit `return None`, unreachable for
`retries ≥ 1`).  Branches, in source order: 429 (sleep the parsed
`Retry-After`, clear the window, retry or raise `KaitenApiError`), 404
(`KaitenNotFoundError`, immediate), 422 (`KaitenValidationError`,
immediate), other `≥ 400` (`KaitenApiError`, immediate), 204 (`None`),
other statuses (the JSON body); `aiohttp.ClientError` (sleep `delay`,
retry, or raise `KaitenApiError` wrapping the cause). -/
def attemptLoop (endpoint : String) (retries : Nat) (delay : ℚ)
    (oracle : Nat → AttemptResult) : Nat → Nat → List ℚ → RunResult
  | _, 0, w => ⟨[], .ok none, w⟩
  | attempt, fuel + 1, w =>
    match oracle attempt with
    | .clientError e =>
      if attempt < retries then
        let r := attemptLoop endpoint retries delay oracle (attempt + 1) fuel w
        ⟨.send attempt w :: .sleepFor delay :: r.events, r.outcome, r.window⟩
      else
        ⟨[.send attempt w],
          .error ⟨.apiError,
            "HTTP client error after " ++ toString retries ++ " retries: " ++ e, none⟩, w⟩
    | .response status retryAfter body rawText =>
      if status = 429 then
        let rd := parseRetryAfter retryAfter
        if attempt < retries then
          let r := attemptLoop endpoint retries delay oracle (attempt + 1) fuel []
          ⟨.send attempt w :: .sleepFor rd :: .clearWindow :: r.events, r.outcome, r.window⟩
        else
          ⟨[.send attempt w, .sleepFor rd, .clearWindow],
            .error ⟨.apiError,
              "Rate limit exceeded after " ++ toString retries ++ " retries", none⟩, []⟩
      else if status = 404 then
        ⟨[.send attempt w],
          .error ⟨.notFound, "Resource not found: " ++ endpoint, none⟩, w⟩
      else if status = 422 then
        ⟨[.send attempt w],
          .error ⟨.validation, "Validation error: ", some body⟩, w⟩
      else if 400 ≤ status then
        ⟨[.send attempt w],
          .error ⟨.apiError, "API error " ++ toString status ++ ": " ++ rawText, none⟩, w⟩
      else if status = 204 then
        ⟨[.send attempt w], .ok none, w⟩
      else
        ⟨[.send attempt w], .ok (some body), w⟩

/-- One `_request` invocation (lines 122-188) as seen from the moment the
rate-limiter wait (if any) has finished: at clock value `now` the shared
window is pruned of entries older than 1 second, the new timestamp is
appended, and the retry loop runs with `MAX_RETRIES` attempts and
`RETRY_DELAY` inter-attempt delay.  The waiting loop itself (lines
127-135) is the subject of the rate-limiter transition system below. -/
def requestRun (endpoint : String) (now : ℚ) (window0 : List ℚ)
    (oracle : Nat → AttemptResult) : RunResult :=
  let w1 := window0.filter (fun t => now - t < 1) ++ [now]
  let r := attemptLoop endpoint MAX_RETRIES RETRY_DELAY oracle 1 MAX_RETRIES w1
  ⟨.acquire now :: r.events, r.outcome, r.window⟩

/-- `KaitenClient.delete_card` (lines 474-477): one `_request('DELETE',
f'/cards/{card_id}')`; a raised exception propagates, otherwise the
method returns `True`. -/
def deleteCard (cardId : Int) (now : ℚ) (window0 : List ℚ)
    (oracle : Nat → AttemptResult) : Except KExc Bool :=
  match (requestRun ("/cards/" ++ toString cardId) now window0 oracle).outcome with
  | .ok _ => .ok true
  | .error e => .error e

/-- The envelope unwrapping of `get_cards` (line 384):
`response if isinstance(response, list) else response.get('items', [])`.
`none` models the `AttributeError` Python would raise when the payload is
neither a list nor an object. -/
def envelopeItems (resp : Json) : Option Json :=
  match resp with
  | .jarr xs => some (.jarr xs)
  | .jobj fields => some ((fields.lookup "items").getD (.jarr []))
  | _ => none

/-- Oracle for the C2 counterexample: the transport fails on every
attempt. -/
def allTransportErrors : Nat → AttemptResult :=
  fun _ => .clientError "Cannot connect to host"

/-- Oracle for the C3 counterexample: every attempt receives HTTP 429
with no `Retry-After` header. -/
def all429 : Nat → AttemptResult :=
  fun _ => .response 429 none .jnull ""

/-! ## The rate limiter as a transition system (C1, lines 122-137)

```python
now = asyncio.get_event_loop().time()
self._request_times = [t for t in self._request_times if now - t < 1.0]
while len(self._request_times) >= KaitenConfig.LIMIT_PER_SEC:
    ...
    await asyncio.sleep(sleep_time)
    now = asyncio.get_event_loop().time()
    self._request_times = [t for t in self._request_times if now - t < 1.0]
self._request_times.append(now)
```

Under asyncio's single-threaded cooperative scheduling, control changes
hands only at `await` points.  The prune + size-check and — when the
check passes — the append of the new timestamp contain no `await`, so
they form one atomic section; `await asyncio.sleep` is the section's only
suspension point, after which a waiting task re-reads the clock and
re-executes prune + check from the top.  A task still waiting is
therefore modelled as one that has not yet taken its `acquire` step, and
one shared-state step is either a monotone clock advance or one task's
atomic prune-check-append.  The `log` component records every admitted
request-start timestamp; the claim bounds the log. -/

/-- The shared rate-limiter state: the monotonic clock, the shared
`_request_times` window, and the log of all admitted request-starts. -/
structure RLState where
  now : ℚ
  window : List ℚ
  log : List ℚ

/-- The prune condition `now - t < 1.0` of lines 125 and 135 (`t`
survives the pruning). -/
def recentAt (now t : ℚ) : Bool :=
  decide (now - t < 1)

/-- `t` lies in the trailing 1-second window ending at `w`. -/
def inTrailingWindow (w t : ℚ) : Bool :=
  decide (w - 1 < t ∧ t ≤ w)

/-- One step of the shared state under per-interval limit `L`: either
the monotonic clock advances (some task is sleeping or doing I/O), or
one task runs its atomic prune-check-append section at the current
clock — admission requires the pruned window to hold fewer than `L`
entries, and then the current time is appended to the window and logged
as an admitted request-start. -/
inductive RLStep (L : Nat) : RLState → RLState → Prop
  | tick (s : RLState) (t : ℚ) (h : s.now ≤ t) :
      RLStep L s ⟨t, s.window, s.log⟩
  | acquire (s : RLState)
      (h : (s.window.filter (recentAt s.now)).length < L) :
      RLStep L s
        ⟨s.now, s.window.filter (recentAt s.now) ++ [s.now], s.log ++ [s.now]⟩

/-- Reachability of a shared state through any interleaving of steps. -/
inductive RLReachable (L : Nat) (init : RLState) : RLState → Prop
  | refl : RLReachable L init init
  | step {s s2 : RLState} : RLReachable L init s → RLStep L s s2 →
      RLReachable L init s2

/-- The inductive invariant of the rate limiter: every admitted
timestamp lies in the past, and the still-recent admitted timestamps are
exactly the still-recent window entries. -/
def RLInv (s : RLState) : Prop :=
  (∀ t ∈ s.log, t ≤ s.now) ∧
  s.log.filter (recentAt s.now) = s.window.filter (recentAt s.now)

/-- Oracle for the C4 witness: every attempt receives HTTP 404. -/
def resp404Oracle : Nat → AttemptResult :=
  fun _ => .response 404 none .jnull "Not found"

/-- Oracle for the C5 witness: HTTP 204 with an (ignored) body. -/
def resp204Oracle : Nat → AttemptResult :=
  fun _ => .response 204 none .jnull ""

/-- Oracle for the C5 witness: HTTP 200 whose body is a JSON list. -/
def resp200ListOracle : Nat → AttemptResult :=
  fun _ => .response 200 none (.jarr [.jnum 1, .jnum 2]) "[1, 2]"

/-- Concrete heap for the C9 witness: one allocated dictionary at
reference 0. -/
def witHeap : Heap :=
  ⟨1, fun r => if r = 0 then [("id", .pint 5), ("title", .pstr "T")] else []⟩

/-- Concrete object for the C9 witness. -/
def witObj : KObj := kobjInit witHeap 0

/-- Concrete mutation sequence for the C9 witness: replace a key, delete
a key, add a key — all on the dictionary returned by `data`. -/
def witMuts : List DictMut :=
  [.set "title" (.pstr "X"), .del "id", .set "extra" .pnone]

end Kaiten

namespace Kaiten

/-! ## Theorems -/

/-- Mutations through one reference leave every other reference's
dictionary unchanged. -/
theorem applyMuts_frame (ms : List DictMut) (h : Heap) (r q : Nat) (hq : q ≠ r) :
    (applyMuts h r ms).mem q = h.mem q := by
  induction ms generalizing h with
  | nil => rfl
  | cons m ms ih =>
    show (applyMuts (applyMut h r m) r ms).mem q = h.mem q
    rw [ih]
    cases m <;> simp [applyMut, hq]

/-- C8: constructing credentials with an empty-after-trimming domain or
token fails with a configuration error, and every successfully
constructed credentials object stores the trimmed, non-empty domain and
token. -/
theorem credentials_nonempty_after_trim (d t : String) :
    ((pyTrim d = "" ∨ pyTrim t = "") → (credentialsInit d t).isOk = false) ∧
    (∀ c : Credentials, credentialsInit d t = .ok c →
      c.domain = pyTrim d ∧ c.token = pyTrim t ∧ c.domain ≠ "" ∧ c.token ≠ "") := by
  constructor
  · intro h
    rcases h with h | h <;> simp [credentialsInit, h, Except.isOk, Except.toBool]
    by_cases hd : d = "" ∨ pyTrim d = "" <;> simp [hd]
  · intro c hc
    by_cases hd : d = "" ∨ pyTrim d = ""
    · simp [credentialsInit, hd] at hc
    · by_cases ht : t = "" ∨ pyTrim t = ""
      · simp [credentialsInit, hd, ht] at hc
      · simp [credentialsInit, hd, ht] at hc
        push_neg at hd ht
        subst hc
        exact ⟨rfl, rfl, hd.2, ht.2⟩

/-- C9: the `data` property returns a shallow copy of `_data`: the fresh
dictionary starts with the same top-level entries, and after any sequence
of top-level mutations (add / remove / replace keys) applied to the
returned dictionary, the object's own dictionary and hence `__getitem__`,
`__contains__`, `get` and later `data` reads are unchanged (`id` reads
only the cached `_id` and touches no dictionary at all).  The hypothesis
says the object's `_data` reference was allocated in the heap. -/
theorem data_shallow_copy_frame (h : Heap) (o : KObj) (ms : List DictMut)
    (hv : o.dataRef < h.next) :
    (kobjData h o).2.mem (kobjData h o).1 = h.mem o.dataRef ∧
    (applyMuts (kobjData h o).2 (kobjData h o).1 ms).mem o.dataRef = h.mem o.dataRef ∧
    (∀ k, kobjGetItem (applyMuts (kobjData h o).2 (kobjData h o).1 ms) o k =
      kobjGetItem h o k) ∧
    (∀ k, kobjContains (applyMuts (kobjData h o).2 (kobjData h o).1 ms) o k =
      kobjContains h o k) ∧
    (∀ k dflt, kobjGet (applyMuts (kobjData h o).2 (kobjData h o).1 ms) o k dflt =
      kobjGet h o k dflt) ∧
    (kobjData (applyMuts (kobjData h o).2 (kobjData h o).1 ms) o).2.mem
      (kobjData (applyMuts (kobjData h o).2 (kobjData h o).1 ms) o).1 =
      h.mem o.dataRef := by
  have hne : o.dataRef ≠ h.next := Nat.ne_of_lt hv
  have hbase : (applyMuts (kobjData h o).2 (kobjData h o).1 ms).mem o.dataRef =
      h.mem o.dataRef := by
    rw [applyMuts_frame ms (kobjData h o).2 (kobjData h o).1 o.dataRef
      (by simpa [kobjData] using hne)]
    simp [kobjData, hne]
  refine ⟨by simp [kobjData], hbase, ?_, ?_, ?_, ?_⟩
  · intro k
    simp [kobjGetItem, hbase]
  · intro k
    simp [kobjContains, hbase]
  · intro k dflt
    simp [kobjGet, hbase]
  · simpa [kobjData] using hbase

/-- Witness for C9 at a concrete heap, object and mutation sequence:
after replacing `"title"`, deleting `"id"` and adding `"extra"` in the
dictionary returned by `data`, the object still reads
`self._data["title"] == "T"`. -/
theorem data_shallow_copy_frame_witness :
    witObj.dataRef < witHeap.next ∧
    kobjGetItem (applyMuts (kobjData witHeap witObj).2 (kobjData witHeap witObj).1 witMuts)
      witObj "title" = some (.pstr "T") := by
  refine ⟨by decide, ?_⟩
  rw [(data_shallow_copy_frame witHeap witObj witMuts (by decide)).2.2.1 "title"]
  decide

/-- C10: `KaitenObject.__eq__` holds exactly when the concrete class and
the id agree (other data fields are irrelevant to the model's equality
state), equal objects have equal hashes, comparison against a
non-`KaitenObject` value is always `False`, and the relation is reflexive
and symmetric. -/
theorem kaiten_eq_iff_class_and_id :
    (∀ a b : KObject, kaitenEq a (.kobj b) = true ↔ a.cls = b.cls ∧ a.id = b.id) ∧
    (∀ a b : KObject, kaitenEq a (.kobj b) = true → kaitenHash a = kaitenHash b) ∧
    (∀ (a : KObject) (v : PyVal), kaitenEq a (.other v) = false) ∧
    (∀ a : KObject, kaitenEq a (.kobj a) = true) ∧
    (∀ a b : KObject, kaitenEq a (.kobj b) = kaitenEq b (.kobj a)) := by
  refine ⟨?_, ?_, ?_, ?_, ?_⟩
  · intro a b
    simp [kaitenEq, and_comm]
  · intro a b hab
    simp only [kaitenEq, Bool.and_eq_true, decide_eq_true_eq] at hab
    simp [kaitenHash, hab.1, hab.2]
  · intro a v
    rfl
  · intro a
    simp [kaitenEq]
  · intro a b
    simp [kaitenEq, eq_comm, Bool.and_comm]

/-- Witness for C10 at concrete objects: two `Card`-class objects with
id `5` compare equal and have equal hashes. -/
theorem kaiten_eq_iff_class_and_id_witness :
    kaitenEq ⟨"Card", some (.pint 5)⟩ (.kobj ⟨"Card", some (.pint 5)⟩) = true ∧
    kaitenHash (⟨"Card", some (.pint 5)⟩ : KObject) =
      kaitenHash (⟨"Card", some (.pint 5)⟩ : KObject) := by
  refine ⟨(kaiten_eq_iff_class_and_id.1 _ _).mpr ⟨rfl, rfl⟩, ?_⟩
  exact kaiten_eq_iff_class_and_id.2.1 _ _ (by decide)

/-- Monotone clock: a timestamp still recent at a later clock value was
already recent at an earlier one. -/
theorem recentAt_mono {now t x : ℚ} (h : now ≤ t) (hx : recentAt t x = true) :
    recentAt now x = true := by
  simp only [recentAt, decide_eq_true_eq] at *
  linarith

/-- Pruning at a later clock value refines pruning at an earlier one. -/
theorem filter_recentAt_shift (l : List ℚ) {now t : ℚ} (h : now ≤ t) :
    l.filter (recentAt t) = (l.filter (recentAt now)).filter (recentAt t) := by
  rw [List.filter_filter]
  refine List.filter_congr ?_
  intro x _
  cases hr : recentAt t x with
  | true => simp [recentAt_mono h hr]
  | false => simp

/-- The rate-limiter invariant is preserved by every step. -/
theorem RLInv_preserved {L : Nat} {s s2 : RLState} (hstep : RLStep L s s2)
    (hinv : RLInv s) : RLInv s2 := by
  obtain ⟨h1, h2⟩ := hinv
  cases hstep with
  | tick t ht =>
    refine ⟨fun x hx => le_trans (h1 x hx) ht, ?_⟩
    show s.log.filter (recentAt t) = s.window.filter (recentAt t)
    rw [filter_recentAt_shift s.log ht, filter_recentAt_shift s.window ht, h2]
  | acquire hguard =>
    constructor
    · intro x hx
      rcases List.mem_append.1 hx with hx | hx
      · exact h1 x hx
      · simp only [List.mem_singleton] at hx
        simp [hx]
    · show (s.log ++ [s.now]).filter (recentAt s.now) =
        (s.window.filter (recentAt s.now) ++ [s.now]).filter (recentAt s.now)
      have hidem : (s.window.filter (recentAt s.now)).filter (recentAt s.now) =
          s.window.filter (recentAt s.now) := by
        rw [List.filter_filter]
        simp [Bool.and_self]
      rw [List.filter_append, List.filter_append, hidem, h2]

/-- The trailing-window bound on the log of admitted request-starts is
preserved by every step. -/
theorem RLcount_preserved {L : Nat} {s s2 : RLState} (hstep : RLStep L s s2)
    (hinv : RLInv s) (hcount : ∀ v, s.log.countP (inTrailingWindow v) ≤ L) :
    ∀ v, s2.log.countP (inTrailingWindow v) ≤ L := by
  cases hstep with
  | tick t ht => exact hcount
  | acquire hguard =>
    intro v
    show (s.log ++ [s.now]).countP (inTrailingWindow v) ≤ L
    rw [List.countP_append]
    by_cases hv : inTrailingWindow v s.now = true
    · have hv' : v - 1 < s.now ∧ s.now ≤ v := by
        simpa [inTrailingWindow] using hv
      have hsub : s.log.countP (inTrailingWindow v) =
          (s.log.filter (recentAt s.now)).countP (inTrailingWindow v) := by
        rw [List.countP_filter (inTrailingWindow v) (recentAt s.now) s.log]
        refine List.countP_congr ?_
        intro x hx
        constructor
        · intro hpx
          have hxle := hinv.1 x hx
          have hrec : recentAt s.now x = true := by
            simp only [inTrailingWindow, decide_eq_true_eq] at hpx
            simp only [recentAt, decide_eq_true_eq]
            linarith [hpx.1, hv'.2]
          simp [hpx, hrec]
        · intro hand
          exact (Bool.and_eq_true _ _ |>.mp hand).1
      have hlt : s.log.countP (inTrailingWindow v) < L := by
        calc s.log.countP (inTrailingWindow v)
            = (s.log.filter (recentAt s.now)).countP (inTrailingWindow v) := hsub
          _ ≤ (s.log.filter (recentAt s.now)).length :=
              List.countP_le_length _
          _ = (s.window.filter (recentAt s.now)).length := by rw [hinv.2]
          _ < L := hguard
      have hone : List.countP (inTrailingWindow v) [s.now] = 1 := by
        simp [List.countP_cons, hv]
      omega
    · have hzero : List.countP (inTrailingWindow v) [s.now] = 0 := by
        simp [List.countP_cons, hv]
      rw [hzero]
      simpa using hcount v

/-- C1: over every interleaving of concurrent callers sharing one
client's rate limiter with per-interval limit `L` (`LIMIT_PER_SEC = 3`
by default), starting from the session-initial empty window, no trailing
1-second window ever contains more than `L` admitted request-start
timestamps: pruning keeps only entries with `now - t < 1.0`, admission
requires the pruned size to be below `L`, and the prune-check-append
section is atomic (it contains no `await`). -/
theorem rate_limiter_window_bound (L : Nat) (n0 : ℚ) (s : RLState)
    (h : RLReachable L ⟨n0, [], []⟩ s) (w : ℚ) :
    s.log.countP (inTrailingWindow w) ≤ L := by
  suffices hs : RLInv s ∧ ∀ v, s.log.countP (inTrailingWindow v) ≤ L from hs.2 w
  induction h with
  | refl => exact ⟨⟨by simp, rfl⟩, fun v => by simp⟩
  | step hreach hstep ih =>
    exact ⟨RLInv_preserved hstep ih.1, RLcount_preserved hstep ih.1 ih.2⟩

/-- Witness for C1: a concrete 2-acquire interleaving at clock 0 under
limit 3; the log `[0, 0]` never exceeds 3 entries in any trailing
window, checked at `w = 0`. -/
theorem rate_limiter_window_bound_witness :
    RLReachable 3 ⟨0, [], []⟩ ⟨0, [0, 0], [0, 0]⟩ ∧
    (RLState.log ⟨0, [0, 0], [0, 0]⟩).countP (inTrailingWindow 0) ≤ 3 := by
  have h0 : recentAt (0 : ℚ) 0 = true := by simp [recentAt]
  have s1 : RLStep 3 ⟨0, [], []⟩ ⟨0, [0], [0]⟩ := by
    have := RLStep.acquire (L := 3) ⟨0, [], []⟩ (by simp)
    simpa using this
  have s2 : RLStep 3 ⟨0, [0], [0]⟩ ⟨0, [0, 0], [0, 0]⟩ := by
    have := RLStep.acquire (L := 3) ⟨0, [0], [0]⟩ (by simp [List.filter_cons, h0])
    simpa [List.filter_cons, h0] using this
  have hreach : RLReachable 3 ⟨0, [], []⟩ ⟨0, [0, 0], [0, 0]⟩ :=
    .step (.step .refl s1) s2
  exact ⟨hreach, rate_limiter_window_bound 3 0 ⟨0, [0, 0], [0, 0]⟩ hreach 0⟩

/-- C2 counterexample: when every transport attempt raises
`aiohttp.ClientError`, `_request` makes 3 attempts but performs only ONE
rate-limiter acquisition for the whole call (not one per attempt as the
claim states), and the final failure is the generic `KaitenApiError`, not
`KaitenConnectionError`. -/
theorem transport_retry_counterexample :
    (requestRun "/cards" 0 [] allTransportErrors).events.countP isSend = 3 ∧
    (requestRun "/cards" 0 [] allTransportErrors).events.countP isAcquire = 1 ∧
    (1 : Nat) ≠ 3 ∧
    (requestRun "/cards" 0 [] allTransportErrors).outcome =
      .error ⟨.apiError,
        "HTTP client error after 3 retries: Cannot connect to host", none⟩ ∧
    ExcClass.apiError ≠ ExcClass.connection := by
  refine ⟨by decide, by decide, by decide, rfl, by decide⟩

/-- C2 amended: with the default 3-attempt budget and every attempt
raising a transport error, exactly 3 attempts are made, a single
rate-limiter acquisition (one recorded timestamp) precedes the whole
call, each non-final failure is followed by a sleep of exactly
`RETRY_DELAY = 1.0`, and the call fails with the generic `KaitenApiError`
wrapping the last underlying cause. -/
theorem transport_errors_exhaust_retries (endpoint : String) (now : ℚ)
    (w : List ℚ) (oracle : Nat → AttemptResult) (e1 e2 e3 : String)
    (h1 : oracle 1 = .clientError e1) (h2 : oracle 2 = .clientError e2)
    (h3 : oracle 3 = .clientError e3) :
    (requestRun endpoint now w oracle).events =
      [.acquire now, .send 1 (w.filter (fun t => now - t < 1) ++ [now]),
       .sleepFor RETRY_DELAY, .send 2 (w.filter (fun t => now - t < 1) ++ [now]),
       .sleepFor RETRY_DELAY, .send 3 (w.filter (fun t => now - t < 1) ++ [now])] ∧
    (requestRun endpoint now w oracle).outcome =
      .error ⟨.apiError, "HTTP client error after 3 retries: " ++ e3, none⟩ := by
  constructor
  · simp [requestRun, MAX_RETRIES, attemptLoop, h1, h2, h3]
  · simp only [requestRun, MAX_RETRIES, attemptLoop, h1, h2, h3]
    norm_num
    exact congrArg (· ++ e3) (by decide)

/-- Witness for the amended C2 theorem at a concrete run. -/
theorem transport_errors_exhaust_retries_witness :
    (allTransportErrors 1 = .clientError "Cannot connect to host") ∧
    (requestRun "/spaces" 2 [] allTransportErrors).outcome =
      .error ⟨.apiError,
        "HTTP client error after 3 retries: " ++ "Cannot connect to host", none⟩ := by
  refine ⟨rfl, ?_⟩
  exact (transport_errors_exhaust_retries "/spaces" 2 [] allTransportErrors
    "Cannot connect to host" "Cannot connect to host" "Cannot connect to host"
    rfl rfl rfl).2

/-- Every iteration of the retry loop issues its HTTP exchange first:
the event trace of a loop entered with positive fuel starts with
`send attempt window`. -/
theorem attemptLoop_head (e : String) (r : Nat) (d : ℚ)
    (o : Nat → AttemptResult) (attempt fuel : Nat) (w : List ℚ) :
    ∃ rest, (attemptLoop e r d o attempt (fuel + 1) w).events =
      .send attempt w :: rest := by
  cases ho : o attempt with
  | clientError msg =>
    simp only [attemptLoop, ho]
    split_ifs <;> exact ⟨_, rfl⟩
  | response status retryAfter body rawText =>
    simp only [attemptLoop, ho]
    split_ifs <;> exact ⟨_, rfl⟩

/-- C3 counterexample: when the 429 responses exhaust all attempts, the
code raises the generic `KaitenApiError` (message `"Rate limit exceeded
after 3 retries"`), not the dedicated `KaitenRateLimitError` class the
claim names as the rate-limit-exceeded kind. -/
theorem rate_limit_exception_counterexample :
    (requestRun "/cards" 0 [] all429).outcome =
      .error ⟨.apiError, "Rate limit exceeded after 3 retries", none⟩ ∧
    ExcClass.apiError ≠ ExcClass.rateLimit := by
  exact ⟨rfl, by decide⟩

/-- C3 amended: a 429 answer makes `_request` sleep exactly the parsed
`Retry-After` value (`float(header)`, defaulting to `1.0` when the header
is absent or unparseable), clear the shared rate window completely before
the next attempt (the next exchange starts with window `[]`), and — when
no attempts remain — fail with the generic `KaitenApiError` (message
`"Rate limit exceeded after 3 retries"`) rather than the dedicated
`KaitenRateLimitError` class. -/
theorem rate_limit_429_behavior (endpoint : String) (now : ℚ) (w : List ℚ)
    (oracle : Nat → AttemptResult) (ra : Option String) (body : Json) (raw : String)
    (h1 : oracle 1 = .response 429 ra body raw) :
    (∃ rest, (requestRun endpoint now w oracle).events =
      .acquire now :: .send 1 (w.filter (fun t => now - t < 1) ++ [now]) ::
        .sleepFor (parseRetryAfter ra) :: .clearWindow :: .send 2 [] :: rest) ∧
    parseRetryAfter none = 1 ∧
    (∀ s, pyFloat s = none → parseRetryAfter (some s) = 1) ∧
    (∀ s q, pyFloat s = some q → parseRetryAfter (some s) = q) ∧
    ((∀ n, oracle n = .response 429 ra body raw) →
      (requestRun endpoint now w oracle).outcome =
        .error ⟨.apiError, "Rate limit exceeded after 3 retries", none⟩) := by
  have hone : parseRetryAfter none = 1 := by
    have hs : pyStrip "1".data = ['1'] := by decide
    simp [parseRetryAfter, pyFloat, hs, pyFloatCore, natOfDigits]
  refine ⟨?_, hone, ?_, ?_, ?_⟩
  · obtain ⟨rest, hrest⟩ := attemptLoop_head endpoint MAX_RETRIES RETRY_DELAY oracle 2 1 []
    refine ⟨rest, ?_⟩
    simp only [requestRun, MAX_RETRIES, attemptLoop, h1]
    norm_num
    exact hrest
  · intro s hs
    simp [parseRetryAfter, hs]
  · intro s q hs
    simp [parseRetryAfter, hs]
  · intro hall
    simp only [requestRun, MAX_RETRIES, attemptLoop, hall 1, hall 2, hall 3]
    norm_num
    exact show "Rate limit exceeded after " ++ toString (3 : Nat) ++ " retries" =
      "Rate limit exceeded after 3 retries" by decide

/-- Witness for the amended C3 theorem at a concrete run: header absent,
so the sleep is exactly `parseRetryAfter none = 1`, and the second
exchange starts with an empty window. -/
theorem rate_limit_429_behavior_witness :
    (all429 1 = .response 429 none .jnull "") ∧
    (∃ rest, (requestRun "/boards" 5 [3] all429).events =
      .acquire 5 :: .send 1 ([3].filter (fun t => (5 : ℚ) - t < 1) ++ [5]) ::
        .sleepFor (parseRetryAfter none) :: .clearWindow :: .send 2 [] :: rest) := by
  exact ⟨rfl, (rate_limit_429_behavior "/boards" 5 [3] all429 none .jnull "" rfl).1⟩

/-- C4: a 404 response makes the call fail immediately with
`KaitenNotFoundError` carrying the endpoint; no retry happens — the trace
holds exactly one exchange — and `delete_card` on an already-deleted card
surfaces that error instead of returning `True`. -/
theorem not_found_fails_immediately (endpoint : String) (now : ℚ) (w : List ℚ)
    (oracle : Nat → AttemptResult) (ra : Option String) (body : Json) (raw : String)
    (cardId : Int) (h1 : oracle 1 = .response 404 ra body raw) :
    (requestRun endpoint now w oracle).events =
      [.acquire now, .send 1 (w.filter (fun t => now - t < 1) ++ [now])] ∧
    (requestRun endpoint now w oracle).outcome =
      .error ⟨.notFound, "Resource not found: " ++ endpoint, none⟩ ∧
    deleteCard cardId now w oracle =
      .error ⟨.notFound, "Resource not found: " ++ ("/cards/" ++ toString cardId), none⟩ ∧
    (∀ b : Bool, deleteCard cardId now w oracle ≠ .ok b) := by
  have hdel : deleteCard cardId now w oracle =
      .error ⟨.notFound, "Resource not found: " ++ ("/cards/" ++ toString cardId), none⟩ := by
    simp [deleteCard, requestRun, MAX_RETRIES, attemptLoop, h1]
  refine ⟨?_, ?_, hdel, ?_⟩
  · simp [requestRun, MAX_RETRIES, attemptLoop, h1]
  · simp [requestRun, MAX_RETRIES, attemptLoop, h1]
  · intro b hb
    rw [hdel] at hb
    exact Except.noConfusion hb

/-- Witness for C4 at a concrete run: deleting card 7 when the server
answers 404. -/
theorem not_found_fails_immediately_witness :
    (resp404Oracle 1 = .response 404 none .jnull "Not found") ∧
    (requestRun "/cards/7" 0 [] resp404Oracle).events = [.acquire 0, .send 1 [0]] ∧
    deleteCard 7 0 [] resp404Oracle ≠ .ok true := by
  have h := not_found_fails_immediately "/cards/7" 0 [] resp404Oracle
    none .jnull "Not found" 7 rfl
  refine ⟨rfl, ?_, h.2.2.2 true⟩
  have h2 := h.1
  simpa using h2

/-- C5: response classification — a 204 answer yields payload `None`, a
2xx answer yields the decoded JSON body unchanged (in particular a JSON
list is passed through as-is), and the façade's envelope unwrapping maps
a list body to itself and an object body to its `items` field, or to the
empty list when `items` is absent. -/
theorem response_payload_classification (endpoint : String) (now : ℚ)
    (w : List ℚ) (oracle : Nat → AttemptResult) :
    (∀ ra body raw, oracle 1 = .response 204 ra body raw →
      (requestRun endpoint now w oracle).outcome = .ok none) ∧
    (∀ s ra body raw, oracle 1 = .response s ra body raw →
      200 ≤ s → s < 300 → s ≠ 204 →
      (requestRun endpoint now w oracle).outcome = .ok (some body)) ∧
    (∀ xs, envelopeItems (.jarr xs) = some (.jarr xs)) ∧
    (∀ fields v, fields.lookup "items" = some v →
      envelopeItems (.jobj fields) = some v) ∧
    (∀ fields, fields.lookup "items" = none →
      envelopeItems (.jobj fields) = some (.jarr [])) := by
  refine ⟨?_, ?_, ?_, ?_, ?_⟩
  · intro ra body raw h1
    simp [requestRun, MAX_RETRIES, attemptLoop, h1]
  · intro s ra body raw h1 hlo hhi h204
    have h429 : s ≠ 429 := by omega
    have h404 : s ≠ 404 := by omega
    have h422 : s ≠ 422 := by omega
    have h400 : ¬ 400 ≤ s := by omega
    simp [requestRun, MAX_RETRIES, attemptLoop, h1, h429, h404, h422, h400, h204]
  · intro xs
    rfl
  · intro fields v hv
    simp [envelopeItems, hv]
  · intro fields hv
    simp [envelopeItems, hv]

/-- Witness for C5 at concrete runs: a 204 answer yields `None`; a 200
answer whose body is the list `[1, 2]` yields it unchanged, and the
envelope unwrapping is checked on `{"items": [...]}`-shaped and
`items`-free objects. -/
theorem response_payload_classification_witness :
    (resp204Oracle 1 = .response 204 none .jnull "") ∧
    (requestRun "/cards" 0 [] resp204Oracle).outcome = .ok none ∧
    (resp200ListOracle 1 = .response 200 none (.jarr [.jnum 1, .jnum 2]) "[1, 2]") ∧
    ((200 : Nat) ≤ 200 ∧ (200 : Nat) < 300 ∧ (200 : Nat) ≠ 204) ∧
    (requestRun "/cards" 0 [] resp200ListOracle).outcome =
      .ok (some (.jarr [.jnum 1, .jnum 2])) ∧
    envelopeItems (.jobj [("items", .jarr [.jnum 3])]) = some (.jarr [.jnum 3]) ∧
    envelopeItems (.jobj [("total", .jnum 0)]) = some (.jarr []) := by
  refine ⟨rfl, ?_, rfl, by decide, ?_, ?_, ?_⟩
  · exact (response_payload_classification "/cards" 0 [] resp204Oracle).1
      none .jnull "" rfl
  · exact (response_payload_classification "/cards" 0 [] resp200ListOracle).2.1
      200 none (.jarr [.jnum 1, .jnum 2]) "[1, 2]" rfl (by decide) (by decide) (by decide)
  · exact (response_payload_classification "/cards" 0 [] resp200ListOracle).2.2.2.1
      [("items", .jarr [.jnum 3])] (.jarr [.jnum 3]) rfl
  · exact (response_payload_classification "/cards" 0 [] resp200ListOracle).2.2.2.2
      [("total", .jnum 0)] rfl

/-- C6 counterexample: claim C6 says normalization strips only LEADING
`https://` / `http://` prefixes, but `get_base_url` removes every
occurrence of those substrings anywhere in the domain; on the input
`"xhttps://y"` the two disagree, so the claim as stated is false. -/
theorem base_url_leading_strip_counterexample :
    get_base_url "xhttps://y" = .ok "https://xy.kaiten.ru/api/v1".data ∧
    "https://".data ++ specLeadingNormalize "xhttps://y" ++ "/api/v1".data =
      "https://xhttps://y.kaiten.ru/api/v1".data ∧
    get_base_url "xhttps://y" ≠
      .ok ("https://".data ++ specLeadingNormalize "xhttps://y" ++ "/api/v1".data) := by
  refine ⟨rfl, by decide, ?_⟩
  intro hx
  have h1 : ("https://xy.kaiten.ru/api/v1".data : List Char) =
      "https://".data ++ specLeadingNormalize "xhttps://y" ++ "/api/v1".data :=
    Except.ok.inj hx
  exact absurd h1 (by decide)

/-- C6 amended: for every non-empty domain the base URL equals
`https://{normalized-domain}/api/v1`, where normalization strips
whitespace, removes every occurrence of the substrings `https://` and
`http://` (not only leading ones) and trailing slashes, and appends
`.kaiten.ru` exactly when the result does not already end with it. -/
theorem base_url_eq_code_normalize (d : String) (h : d ≠ "") :
    get_base_url d = .ok ("https://".data ++ codeNormalize d ++ "/api/v1".data) := by
  simp only [get_base_url, codeNormalize, if_neg h]

/-- Witness for the amended C6 theorem at the concrete domain
`"https://example/"`. -/
theorem base_url_eq_code_normalize_witness :
    ("https://example/" ≠ "") ∧
    get_base_url "https://example/" =
      .ok ("https://".data ++ codeNormalize "https://example/" ++ "/api/v1".data) ∧
    codeNormalize "https://example/" = "example.kaiten.ru".data := by
  exact ⟨by decide, base_url_eq_code_normalize "https://example/" (by decide), by decide⟩

/-- Helper for C7: once the URL already contains a `?`, every further
parameter is appended with an `&` separator. -/
theorem addQueryParams_of_mem (ps : List (String × String)) (url : List Char)
    (h : '?' ∈ url) :
    addQueryParams url ps =
      url ++ (ps.map (fun q => '&' :: (q.1.data ++ '=' :: q.2.data))).flatten := by
  induction ps generalizing url with
  | nil => simp [addQueryParams]
  | cons p rest ih =>
    simp only [addQueryParams, List.foldl_cons, if_pos h] at *
    rw [ih (url ++ ['&'] ++ p.1.data ++ '=' :: p.2.data) (by simp [h])]
    simp [List.append_assoc]

/-- C7: for a URL that does not yet contain `?` and any parameter list,
`_request` appends each parameter literally as `key=value`, the first
preceded by `?` and every later one by `&`, with no URL-encoding of keys
or values (they are spliced in character for character). -/
theorem query_string_shape (url : List Char) (ps : List (String × String))
    (h : '?' ∉ url) :
    addQueryParams url ps =
      url ++ (match ps with
        | [] => []
        | p :: rest =>
          '?' :: (p.1.data ++ '=' :: p.2.data) ++
            (rest.map (fun q => '&' :: (q.1.data ++ '=' :: q.2.data))).flatten) := by
  cases ps with
  | nil => simp [addQueryParams]
  | cons p rest =>
    simp only [addQueryParams, List.foldl_cons, if_neg h]
    have h2 : '?' ∈ url ++ ['?'] ++ p.1.data ++ '=' :: p.2.data := by simp
    have h3 := addQueryParams_of_mem rest
      (url ++ ['?'] ++ p.1.data ++ '=' :: p.2.data) h2
    simp only [addQueryParams] at h3
    rw [h3]
    simp [List.append_assoc]

/-- Witness for C7 at a concrete URL and parameter list: two parameters
are spliced in literally, the first after `?`, the second after `&`. -/
theorem query_string_shape_witness :
    ('?' ∉ "https://x.kaiten.ru/api/v1/cards".data) ∧
    addQueryParams "https://x.kaiten.ru/api/v1/cards".data
      [("board_id", "5"), ("limit", "10")] =
      "https://x.kaiten.ru/api/v1/cards?board_id=5&limit=10".data := by
  refine ⟨by decide, ?_⟩
  rw [query_string_shape _ _ (by decide)]
  decide

/-- Witness for C8 at concrete inputs: a whitespace-only domain is
rejected, and `("  my-dom ", " tok")` stores `("my-dom", "tok")`. -/
theorem credentials_nonempty_after_trim_witness :
    (pyTrim "   " = "" ∨ pyTrim "tok" = "") ∧
    ((credentialsInit "   " "tok").isOk = false) ∧
    (credentialsInit "  my-dom " " tok" = .ok ⟨"my-dom", "tok"⟩ →
      (⟨"my-dom", "tok"⟩ : Credentials).domain = pyTrim "  my-dom ") := by
  refine ⟨Or.inl (by decide), ?_, ?_⟩
  · exact (credentials_nonempty_after_trim "   " "tok").1 (Or.inl (by decide))
  · intro h
    exact ((credentials_nonempty_after_trim "  my-dom " " tok").2 _ h).1

end Kaiten
